import Mathlib

/-!
# Verification of the file-dropzone and file-upload components

Shallow embedding of the drag-and-drop dropzone component
(FileDropzoneComponent) and the deferred-callback logic of
FileUploadComponent, together with theorems checking the
natural-language specification against this embedding.

Each DOM event handler is embedded as a pure function from the component
state and the incoming event to a StepResult that records the successor
state, the final dropEffect of the event payload, and which caller
callbacks were invoked with which arguments.
-/

namespace EmberFileUpload

/-- Classification of a drag payload origin: a real filesystem drop (os)
or content dragged from a rendered web page (web). -/
inductive Source
  | os
  | web
deriving DecidableEq, Repr

/-- The cursor shown during a drag, corresponding to DataTransfer.dropEffect. -/
inductive Cursor
  | link
  | none
  | copy
  | move
deriving DecidableEq, Repr

/-- A native browser File, identified here by its name. -/
structure File where
  name : String
deriving DecidableEq, Repr

/-- One entry of a drag payload: either a native File or a DataTransferItem
that is not a file (addFiles only processes File instances). -/
inductive Entry
  | file (f : File)
  | item (id : Nat)
deriving DecidableEq, Repr

/-- The native DataTransfer object carried by a drag event: its entries,
its current dropEffect, and the origin classification of its payload. -/
structure DataTransfer where
  entries : List Entry
  dropEffect : Cursor
  sourceKind : Source
deriving DecidableEq, Repr

/-- Modelled from the spec: the DataTransferWrapper module is not under
src (only the dropzone component that uses it is). Per the spec it adapts
a drag event into a normalized file-or-item list plus a source
classification, and the component reassigns its dataTransfer reference on
each subsequent event. We model it as a holder of the current
DataTransfer, with filesOrItems and source derived from it. -/
structure DataTransferWrapper where
  dataTransfer : DataTransfer
deriving DecidableEq, Repr

/-- Modelled from the spec: the source classification exposed by the wrapper. -/
def DataTransferWrapper.source (w : DataTransferWrapper) : Source :=
  w.dataTransfer.sourceKind

/-- Modelled from the spec: the normalized list of dragged entries. -/
def DataTransferWrapper.filesOrItems (w : DataTransferWrapper) : List Entry :=
  w.dataTransfer.entries

/-- A drag event as received by the handlers; it carries a DataTransfer. -/
structure FileUploadDragEvent where
  dataTransfer : DataTransfer
deriving DecidableEq, Repr

/-- The origin tag attached to an UploadFile (upload-file.ts FileSource). -/
inductive FileSource
  | browse
  | dragAndDrop
  | web
  | api
deriving DecidableEq, Repr

/-- An UploadFile wraps a native File together with its origin tag. -/
structure UploadFile where
  file : File
  source : FileSource
deriving DecidableEq, Repr

/-- The arguments of FileDropzoneComponent that the handlers consult.
Optional arguments are Option-typed; callback arguments are modelled by a
Bool recording whether the caller supplied them. -/
structure FileDropzoneArgs where
  allowUploadsFromWebsites : Option Bool
  cursor : Option Cursor
  filter : Option (UploadFile → Bool)
  multiple : Option Bool
  onDragEnter : Bool
  onDragLeave : Bool
  onDrop : Bool

/-- The state of a FileDropzoneComponent: its arguments, the resolved
config environment, the tracked active flag, the stored wrapper, the
isDestroyed lifecycle flag, and the contents of its queue (Queue.add
appends). -/
structure Dropzone where
  args : FileDropzoneArgs
  environment : String
  active : Bool
  dataTransferWrapper : Option DataTransferWrapper
  isDestroyed : Bool
  queue : List UploadFile

/-- Getter multiple: this.args.multiple with nullish default true. -/
def Dropzone.multiple (c : Dropzone) : Bool :=
  c.args.multiple.getD true

/-- Getter files: the stored wrapper entries (or empty), truncated to the
first entry when multiple is false. -/
def Dropzone.files (c : Dropzone) : List Entry :=
  let files := (c.dataTransferWrapper.map DataTransferWrapper.filesOrItems).getD []
  if c.multiple then files else files.take 1

/-- Getter isAllowed: test environment, or stored wrapper with os source,
or the allowUploadsFromWebsites argument (undefined is falsy). -/
def Dropzone.isAllowed (c : Dropzone) : Bool :=
  decide (c.environment = "test") ||
  (match c.dataTransferWrapper with
   | some w => decide (w.source = Source.os)
   | Option.none => false) ||
  c.args.allowUploadsFromWebsites.getD false

/-- Getter cursor: this.args.cursor with nullish default copy. -/
def Dropzone.cursor (c : Dropzone) : Cursor :=
  c.args.cursor.getD Cursor.copy

/-- Whether the filter argument accepts a file: files are kept when the
filter is absent or returns true (the loop skips only when a filter is
present and returns false). -/
def acceptsFile (filter : Option (UploadFile → Bool)) (uploadFile : UploadFile) : Bool :=
  match filter with
  | some p => p uploadFile
  | Option.none => true

/-- addFiles: for each entry that is a native File, build an UploadFile
tagged with the drag-and-drop source, drop it when the filter rejects it,
otherwise keep it; the kept files are added to the queue in this order
and returned. This function computes the kept list. -/
def addFiles (filter : Option (UploadFile → Bool)) : List Entry → List UploadFile
  | [] => []
  | Entry.file f :: rest =>
      let uploadFile : UploadFile := ⟨f, FileSource.dragAndDrop⟩
      if acceptsFile filter uploadFile then uploadFile :: addFiles filter rest
      else addFiles filter rest
  | Entry.item _ :: rest => addFiles filter rest

/-- Assignment of the dropEffect field of a DataTransfer. -/
def withDropEffect (dt : DataTransfer) (cur : Cursor) : DataTransfer :=
  { dt with dropEffect := cur }

/-- The guarded refresh shared by didLeaveDropzone, didDragOver and
didDrop: if a wrapper is stored, its dataTransfer is replaced by the
dataTransfer of the incoming event. -/
def Dropzone.refreshWrapper (c : Dropzone) (event : FileUploadDragEvent) : Dropzone :=
  match c.dataTransferWrapper with
  | some _ => { c with dataTransferWrapper := some ⟨event.dataTransfer⟩ }
  | Option.none => c

/-- The observable outcome of one handler invocation: the successor
component state, the dropEffect of the event DataTransfer afterwards, and
the callback invocations (argument lists) performed. -/
structure StepResult where
  state : Dropzone
  dropEffect : Cursor
  dragEnterCall : Option (List Entry × DataTransferWrapper)
  dragLeaveCall : Option (List Entry × DataTransferWrapper)
  dropCall : Option (List UploadFile × DataTransferWrapper)

/-- didEnterDropzone: store a fresh wrapper for the event; if isAllowed,
set the event dropEffect to the configured cursor (the stored wrapper
holds the same DataTransfer object, so the assignment is visible through
it), set active, and invoke onDragEnter with the candidate files and the
wrapper. -/
def didEnterDropzone (c : Dropzone) (event : FileUploadDragEvent) : StepResult :=
  let c1 : Dropzone := { c with dataTransferWrapper := some ⟨event.dataTransfer⟩ }
  if c1.isAllowed then
    let dt := withDropEffect event.dataTransfer c1.cursor
    let c2 : Dropzone := { c1 with dataTransferWrapper := some ⟨dt⟩, active := true }
    { state := c2
      dropEffect := c1.cursor
      dragEnterCall := if c2.args.onDragEnter then some (c2.files, ⟨dt⟩) else Option.none
      dragLeaveCall := Option.none
      dropCall := Option.none }
  else
    { state := c1
      dropEffect := event.dataTransfer.dropEffect
      dragEnterCall := Option.none
      dragLeaveCall := Option.none
      dropCall := Option.none }

/-- didLeaveDropzone: refresh the stored wrapper; if a wrapper is stored
and isAllowed, set the event dropEffect to the cursor, invoke onDragLeave
with the candidate files and the wrapper, clear the wrapper, and reset
active to false unless the component is destroyed. -/
def didLeaveDropzone (c : Dropzone) (event : FileUploadDragEvent) : StepResult :=
  let c1 := c.refreshWrapper event
  if c1.dataTransferWrapper.isSome && c1.isAllowed then
    let dt := withDropEffect event.dataTransfer c1.cursor
    let cw : Dropzone := { c1 with dataTransferWrapper := some ⟨dt⟩ }
    let call := if cw.args.onDragLeave then some (cw.files, (⟨dt⟩ : DataTransferWrapper))
      else Option.none
    let c2 : Dropzone := { cw with dataTransferWrapper := Option.none }
    let c3 : Dropzone := if c2.isDestroyed then c2 else { c2 with active := false }
    { state := c3
      dropEffect := c1.cursor
      dragEnterCall := Option.none
      dragLeaveCall := call
      dropCall := Option.none }
  else
    { state := c1
      dropEffect := event.dataTransfer.dropEffect
      dragEnterCall := Option.none
      dragLeaveCall := Option.none
      dropCall := Option.none }

/-- didDragOver: refresh the stored wrapper; if isAllowed, set the event
dropEffect to the cursor (again visible through the refreshed wrapper,
which aliases the event DataTransfer). No callback is invoked. -/
def didDragOver (c : Dropzone) (event : FileUploadDragEvent) : StepResult :=
  let c1 := c.refreshWrapper event
  if c1.isAllowed then
    let dt := withDropEffect event.dataTransfer c1.cursor
    let c2 : Dropzone :=
      match c1.dataTransferWrapper with
      | some _ => { c1 with dataTransferWrapper := some ⟨dt⟩ }
      | Option.none => c1
    { state := c2
      dropEffect := c1.cursor
      dragEnterCall := Option.none
      dragLeaveCall := Option.none
      dropCall := Option.none }
  else
    { state := c1
      dropEffect := event.dataTransfer.dropEffect
      dragEnterCall := Option.none
      dragLeaveCall := Option.none
      dropCall := Option.none }

/-- didDrop: refresh the stored wrapper; if not isAllowed, set the event
dropEffect to the cursor, clear the wrapper, and return. Otherwise, if a
wrapper is stored, add the candidate files (conversion plus filter plus
Queue.add per survivor), invoke onDrop with the added files and the
wrapper, then reset active and clear the wrapper. -/
def didDrop (c : Dropzone) (event : FileUploadDragEvent) : StepResult :=
  let c1 := c.refreshWrapper event
  if c1.isAllowed then
    match c1.dataTransferWrapper with
    | some w =>
      let added := addFiles c1.args.filter c1.files
      let c2 : Dropzone :=
        { c1 with queue := c1.queue ++ added, active := false,
                  dataTransferWrapper := Option.none }
      { state := c2
        dropEffect := event.dataTransfer.dropEffect
        dragEnterCall := Option.none
        dragLeaveCall := Option.none
        dropCall := if c1.args.onDrop then some (added, w) else Option.none }
    | Option.none =>
      { state := c1
        dropEffect := event.dataTransfer.dropEffect
        dragEnterCall := Option.none
        dragLeaveCall := Option.none
        dropCall := Option.none }
  else
    { state := { c1 with dataTransferWrapper := Option.none }
      dropEffect := c1.cursor
      dragEnterCall := Option.none
      dragLeaveCall := Option.none
      dropCall := Option.none }

/-- The notification state of a FileUploadComponent listener: which
onFileAdd invocations have already run synchronously, and which ones the
runloop next helper has deferred to the following turn. -/
structure UploadNotifyState where
  syncInvocations : List UploadFile
  nextTurn : List UploadFile
deriving DecidableEq, Repr

/-- FileUploadComponent.onFileAdded: when an onFileAdd argument is
present, defer its invocation via the runloop next helper (modelled as
appending to the deferred list); nothing runs synchronously. -/
def FileUploadComponent.onFileAdded (onFileAdd : Bool) (s : UploadNotifyState)
    (file : UploadFile) : UploadNotifyState :=
  if onFileAdd then { s with nextTurn := s.nextTurn ++ [file] } else s

/-- Flushing the next runloop turn: every deferred invocation runs, in
order, and the deferred list empties. -/
def runNextTurn (s : UploadNotifyState) : UploadNotifyState :=
  { syncInvocations := s.syncInvocations ++ s.nextTurn, nextTurn := [] }

/-! ## Shared concrete inputs for witnesses and counterexamples -/

/-- A sample argument record: every optional argument left unset, every
callback supplied. -/
def sampleArgs : FileDropzoneArgs :=
  { allowUploadsFromWebsites := Option.none
    cursor := Option.none
    filter := Option.none
    multiple := Option.none
    onDragEnter := true
    onDragLeave := true
    onDrop := true }

/-- A sample native file. -/
def fileA : File := ⟨"a.txt"⟩

/-- A second sample native file. -/
def fileB : File := ⟨"b.txt"⟩

/-- A web-origin DataTransfer holding one file, with dropEffect move. -/
def webTransfer : DataTransfer := ⟨[Entry.file fileA], Cursor.move, Source.web⟩

/-- An os-origin DataTransfer holding two files, with dropEffect move. -/
def osTransfer : DataTransfer := ⟨[Entry.file fileA, Entry.file fileB], Cursor.move, Source.os⟩

/-- The drag event carrying webTransfer. -/
def webEvent : FileUploadDragEvent := ⟨webTransfer⟩

/-- The drag event carrying osTransfer. -/
def osEvent : FileUploadDragEvent := ⟨osTransfer⟩

/-- A sample dropzone outside the test environment, idle, not destroyed,
with an empty queue and a stored web-origin wrapper. -/
def sampleDropzone : Dropzone :=
  { args := sampleArgs
    environment := "development"
    active := false
    dataTransferWrapper := some ⟨webTransfer⟩
    isDestroyed := false
    queue := [] }


/-- The sample dropzone with the allowUploadsFromWebsites opt-in set. -/
def allowDropzone : Dropzone :=
  { sampleDropzone with
      args := { sampleArgs with allowUploadsFromWebsites := some true } }

/-- The sample dropzone restricted to a single file via multiple false
and equipped with a filter accepting only files named b.txt. -/
def singleDropzone : Dropzone :=
  { sampleDropzone with
      args := { sampleArgs with
        multiple := some false
        filter := some (fun uf => decide (uf.file.name = "b.txt")) } }

/-- The sample dropzone equipped with a filter accepting only files named
b.txt, with multiple left at its default. -/
def filterDropzone : Dropzone :=
  { sampleDropzone with
      args := { sampleArgs with
        filter := some (fun uf => decide (uf.file.name = "b.txt")) } }

/-- The sample dropzone with multiple set to false and no filter. -/
def singleNoFilterDropzone : Dropzone :=
  { sampleDropzone with
      args := { sampleArgs with multiple := some false } }

/-! ## Helper lemmas -/

/-- addFiles computes a filterMap: each File entry is converted to a
drag-and-drop UploadFile and kept exactly when the filter accepts it;
item entries are dropped. -/
lemma addFiles_eq_filterMap (filter : Option (UploadFile → Bool)) (entries : List Entry) :
    addFiles filter entries = entries.filterMap (fun ent =>
      match ent with
      | Entry.file f =>
          if acceptsFile filter ⟨f, FileSource.dragAndDrop⟩ then
            some (⟨f, FileSource.dragAndDrop⟩ : UploadFile)
          else Option.none
      | Entry.item _ => Option.none) := by
  induction entries with
  | nil => rfl
  | cons ent rest ih =>
      cases ent with
      | file f =>
          by_cases hacc : acceptsFile filter ⟨f, FileSource.dragAndDrop⟩ = true
          · simp [addFiles, hacc, List.filterMap_cons, ih]
          · simp [addFiles, hacc, List.filterMap_cons, ih]
      | item i => simp [addFiles, List.filterMap_cons, ih]

/-- isAllowed is false when the environment is not test, the opt-in
argument is unset or false, and any stored wrapper has a non-os source. -/
lemma isAllowed_eq_false (c : Dropzone)
    (h1 : c.environment ≠ "test")
    (h2 : c.args.allowUploadsFromWebsites.getD false = false)
    (h3 : ∀ w, c.dataTransferWrapper = some w → w.dataTransfer.sourceKind ≠ Source.os) :
    c.isAllowed = false := by
  unfold Dropzone.isAllowed
  cases hw : c.dataTransferWrapper with
  | none => simp [h1, h2]
  | some w => simp [h1, h2, DataTransferWrapper.source, h3 w hw]

/-- isAllowed is true whenever the opt-in argument is set to true. -/
lemma isAllowed_of_allow (c : Dropzone)
    (h : c.args.allowUploadsFromWebsites.getD false = true) :
    c.isAllowed = true := by
  unfold Dropzone.isAllowed
  simp [h]

/-- isAllowed is true whenever the stored wrapper has source os. -/
lemma isAllowed_of_os (c : Dropzone) (w : DataTransferWrapper)
    (hw : c.dataTransferWrapper = some w)
    (h : w.dataTransfer.sourceKind = Source.os) :
    c.isAllowed = true := by
  unfold Dropzone.isAllowed
  simp [hw, DataTransferWrapper.source, h]

/-- The guarded refresh leaves the arguments unchanged. -/
lemma refreshWrapper_args (c : Dropzone) (e : FileUploadDragEvent) :
    (c.refreshWrapper e).args = c.args := by
  cases hw : c.dataTransferWrapper <;> simp [Dropzone.refreshWrapper, hw]

/-- The guarded refresh leaves the environment unchanged. -/
lemma refreshWrapper_environment (c : Dropzone) (e : FileUploadDragEvent) :
    (c.refreshWrapper e).environment = c.environment := by
  cases hw : c.dataTransferWrapper <;> simp [Dropzone.refreshWrapper, hw]

/-- The guarded refresh leaves the active flag unchanged. -/
lemma refreshWrapper_active (c : Dropzone) (e : FileUploadDragEvent) :
    (c.refreshWrapper e).active = c.active := by
  cases hw : c.dataTransferWrapper <;> simp [Dropzone.refreshWrapper, hw]

/-- The guarded refresh leaves the queue unchanged. -/
lemma refreshWrapper_queue (c : Dropzone) (e : FileUploadDragEvent) :
    (c.refreshWrapper e).queue = c.queue := by
  cases hw : c.dataTransferWrapper <;> simp [Dropzone.refreshWrapper, hw]

/-- The guarded refresh leaves the isDestroyed flag unchanged. -/
lemma refreshWrapper_isDestroyed (c : Dropzone) (e : FileUploadDragEvent) :
    (c.refreshWrapper e).isDestroyed = c.isDestroyed := by
  cases hw : c.dataTransferWrapper <;> simp [Dropzone.refreshWrapper, hw]

/-- The guarded refresh replaces the DataTransfer of a stored wrapper by
the one of the event, and stores nothing when no wrapper is stored. -/
lemma refreshWrapper_wrapper (c : Dropzone) (e : FileUploadDragEvent) :
    (c.refreshWrapper e).dataTransferWrapper =
      c.dataTransferWrapper.map (fun _ => (⟨e.dataTransfer⟩ : DataTransferWrapper)) := by
  cases hw : c.dataTransferWrapper <;> simp [Dropzone.refreshWrapper, hw]

/-- The guarded refresh leaves the configured cursor unchanged. -/
lemma refreshWrapper_cursor (c : Dropzone) (e : FileUploadDragEvent) :
    (c.refreshWrapper e).cursor = c.cursor := by
  unfold Dropzone.cursor
  rw [refreshWrapper_args]

/-- After the guarded refresh, isAllowed is false when the environment is
not test, the opt-in argument is unset or false, and the event payload
has a non-os source. -/
lemma refreshWrapper_isAllowed_false (c : Dropzone) (e : FileUploadDragEvent)
    (h1 : c.environment ≠ "test")
    (h2 : c.args.allowUploadsFromWebsites.getD false = false)
    (h3 : e.dataTransfer.sourceKind ≠ Source.os) :
    (c.refreshWrapper e).isAllowed = false := by
  apply isAllowed_eq_false
  · rw [refreshWrapper_environment]; exact h1
  · rw [refreshWrapper_args]; exact h2
  · intro w hww
    rw [refreshWrapper_wrapper] at hww
    cases hw : c.dataTransferWrapper with
    | none =>
        rw [hw] at hww
        exact absurd hww (by simp [Option.map_none])
    | some w0 =>
        rw [hw] at hww
        rw [Option.map_some'] at hww
        cases hww
        exact h3

/-- Unfolding of didDrop when a wrapper is stored and the (refreshed)
policy allows the drop: the surviving candidate files are appended to the
queue, onDrop receives them with the refreshed wrapper, active resets and
the wrapper clears, and the event dropEffect is untouched. -/
lemma didDrop_allowed_some (c : Dropzone) (e : FileUploadDragEvent)
    (w0 : DataTransferWrapper)
    (hw : c.dataTransferWrapper = some w0)
    (hA : (c.refreshWrapper e).isAllowed = true) :
    didDrop c e =
      { state :=
          { args := c.args, environment := c.environment, active := false,
            dataTransferWrapper := Option.none, isDestroyed := c.isDestroyed,
            queue := c.queue ++ addFiles c.args.filter
              (if c.multiple then e.dataTransfer.entries
               else e.dataTransfer.entries.take 1) }
        dropEffect := e.dataTransfer.dropEffect
        dragEnterCall := Option.none
        dragLeaveCall := Option.none
        dropCall :=
          if c.args.onDrop then
            some (addFiles c.args.filter
              (if c.multiple then e.dataTransfer.entries
               else e.dataTransfer.entries.take 1),
              (⟨e.dataTransfer⟩ : DataTransferWrapper))
          else Option.none } := by
  have hc1 : c.refreshWrapper e =
      { c with dataTransferWrapper := some ⟨e.dataTransfer⟩ } := by
    simp [Dropzone.refreshWrapper, hw]
  rw [hc1] at hA
  simp only [didDrop, hc1]
  rw [if_pos hA]
  simp [Dropzone.files, Dropzone.multiple, DataTransferWrapper.filesOrItems]

/-- Unfolding of didDrop when no wrapper is stored and the policy allows
the drop: nothing happens at all. -/
lemma didDrop_allowed_none (c : Dropzone) (e : FileUploadDragEvent)
    (hw : c.dataTransferWrapper = Option.none)
    (hA : c.isAllowed = true) :
    didDrop c e =
      { state := c
        dropEffect := e.dataTransfer.dropEffect
        dragEnterCall := Option.none
        dragLeaveCall := Option.none
        dropCall := Option.none } := by
  have hc1 : c.refreshWrapper e = c := by
    simp [Dropzone.refreshWrapper, hw]
  simp only [didDrop, hc1]
  rw [if_pos hA]
  simp [hw]

/-- addFiles never produces more files than it was given entries. -/
lemma addFiles_length_le (filter : Option (UploadFile → Bool)) (entries : List Entry) :
    (addFiles filter entries).length ≤ entries.length := by
  induction entries with
  | nil => simp [addFiles]
  | cons ent rest ih =>
      cases ent with
      | file f =>
          by_cases hacc : acceptsFile filter ⟨f, FileSource.dragAndDrop⟩ = true
          · simp only [addFiles, if_pos hacc, List.length_cons]
            omega
          · simp only [addFiles, if_neg hacc, List.length_cons]
            omega
      | item i =>
          simp only [addFiles, List.length_cons]
          omega

/-- Whenever didEnterDropzone fires the drag-enter callback, the file
list it passes is the event payload, truncated to one entry when multiple
is false. -/
lemma dragEnterCall_files (c : Dropzone) (e : FileUploadDragEvent)
    (l : List Entry) (wpr : DataTransferWrapper)
    (h : (didEnterDropzone c e).dragEnterCall = some (l, wpr)) :
    l = if c.multiple then e.dataTransfer.entries else e.dataTransfer.entries.take 1 := by
  simp only [didEnterDropzone] at h
  split at h
  · split at h
    · rw [Option.some.injEq] at h
      have hl := congrArg Prod.fst h
      simp only at hl
      rw [← hl]
      simp [Dropzone.files, Dropzone.multiple, DataTransferWrapper.filesOrItems, withDropEffect]
    · exact absurd h (by simp)
  · exact absurd h (by simp)

/-- Whenever didLeaveDropzone fires the drag-leave callback, the file
list it passes is the event payload, truncated to one entry when multiple
is false. -/
lemma dragLeaveCall_files (c : Dropzone) (e : FileUploadDragEvent)
    (l : List Entry) (wpr : DataTransferWrapper)
    (h : (didLeaveDropzone c e).dragLeaveCall = some (l, wpr)) :
    l = if c.multiple then e.dataTransfer.entries else e.dataTransfer.entries.take 1 := by
  simp only [didLeaveDropzone] at h
  split at h
  · dsimp only at h
    split at h
    · rw [Option.some.injEq] at h
      have hl := congrArg Prod.fst h
      dsimp only at hl
      rw [← hl]
      simp [Dropzone.files, Dropzone.multiple, DataTransferWrapper.filesOrItems,
        withDropEffect, refreshWrapper_args]
    · exact absurd h (by simp)
  · dsimp only at h
    exact absurd h (by simp)

/-- Whenever didDrop fires the drop callback, the file list it passes is
addFiles applied to the event payload, truncated to one entry when
multiple is false. -/
lemma dropCall_files (c : Dropzone) (e : FileUploadDragEvent)
    (l : List UploadFile) (wpr : DataTransferWrapper)
    (h : (didDrop c e).dropCall = some (l, wpr)) :
    l = addFiles c.args.filter
      (if c.multiple then e.dataTransfer.entries else e.dataTransfer.entries.take 1) := by
  simp only [didDrop] at h
  split at h
  · split at h
    · rename_i heq
      split at h
      · rw [Option.some.injEq] at h
        have hl := congrArg Prod.fst h
        simp only at hl
        rw [refreshWrapper_wrapper] at heq
        cases hw : c.dataTransferWrapper with
        | none => rw [hw] at heq; exact absurd heq (by simp)
        | some w0 =>
            rw [hw, Option.map_some'] at heq
            rw [← hl]
            have hc1 : c.refreshWrapper e =
                { c with dataTransferWrapper := some ⟨e.dataTransfer⟩ } := by
              simp [Dropzone.refreshWrapper, hw]
            rw [hc1]
            simp [Dropzone.files, Dropzone.multiple, DataTransferWrapper.filesOrItems]
      · exact absurd h (by simp)
    · exact absurd h (by simp)
  · exact absurd h (by simp)

/-- Every file produced by addFiles carries the drag-and-drop source tag. -/
lemma addFiles_source (filter : Option (UploadFile → Bool)) (entries : List Entry) :
    ∀ uf ∈ addFiles filter entries, uf.source = FileSource.dragAndDrop := by
  induction entries with
  | nil => simp [addFiles]
  | cons ent rest ih =>
      cases ent with
      | file f =>
          by_cases hacc : acceptsFile filter ⟨f, FileSource.dragAndDrop⟩ = true
          · simp only [addFiles, if_pos hacc, List.mem_cons]
            intro uf huf
            cases huf with
            | inl hl => rw [hl]
            | inr hr => exact ih uf hr
          · simp only [addFiles, if_neg hacc]
            exact ih
      | item i =>
          simp only [addFiles]
          exact ih

/-- On an allowed drag-leave with a stored wrapper, the wrapper is
cleared regardless of the destroyed flag and the callback argument. -/
lemma didLeave_wrapper_cleared (c : Dropzone) (e : FileUploadDragEvent)
    (w0 : DataTransferWrapper)
    (hw : c.dataTransferWrapper = some w0)
    (hA : (c.refreshWrapper e).isAllowed = true) :
    (didLeaveDropzone c e).state.dataTransferWrapper = Option.none := by
  have hc1 : c.refreshWrapper e =
      { c with dataTransferWrapper := some ⟨e.dataTransfer⟩ } := by
    simp [Dropzone.refreshWrapper, hw]
  rw [hc1] at hA
  have hcond : (({ c with dataTransferWrapper := some ⟨e.dataTransfer⟩ } :
      Dropzone).dataTransferWrapper.isSome &&
      ({ c with dataTransferWrapper := some ⟨e.dataTransfer⟩ } : Dropzone).isAllowed)
      = true := by
    rw [hA]
    rfl
  simp only [didLeaveDropzone, hc1]
  rw [if_pos hcond]
  dsimp only
  split <;> rfl

/-! ## Claim theorems -/

/-- C2: isAllowed permits a drag after drag-enter exactly when the
environment is test, or the stored wrapper (the one just built from the
event) has source os, or allowUploadsFromWebsites is true (it defaults to
false when unset); and the idle-to-dragging transition of
didEnterDropzone (active set true, dropEffect set to the configured
cursor, onDragEnter invoked with the candidate file list and the wrapper)
happens exactly when this policy permits. -/
theorem dropzone_enter_policy (c : Dropzone) (e : FileUploadDragEvent)
    (hIdle : c.active = false) (hCb : c.args.onDragEnter = true) :
    (({ c with dataTransferWrapper := some ⟨e.dataTransfer⟩ } : Dropzone).isAllowed = true ↔
      (c.environment = "test" ∨ e.dataTransfer.sourceKind = Source.os ∨
        c.args.allowUploadsFromWebsites = some true)) ∧
    ((c.environment = "test" ∨ e.dataTransfer.sourceKind = Source.os ∨
        c.args.allowUploadsFromWebsites = some true) →
      (didEnterDropzone c e).state.active = true ∧
      (didEnterDropzone c e).dropEffect = c.cursor ∧
      (didEnterDropzone c e).dragEnterCall =
        some ((didEnterDropzone c e).state.files,
          ⟨withDropEffect e.dataTransfer c.cursor⟩) ∧
      (didEnterDropzone c e).state.files =
        (if c.multiple then e.dataTransfer.entries else e.dataTransfer.entries.take 1)) ∧
    (¬ (c.environment = "test" ∨ e.dataTransfer.sourceKind = Source.os ∨
        c.args.allowUploadsFromWebsites = some true) →
      (didEnterDropzone c e).state.active = false ∧
      (didEnterDropzone c e).dropEffect = e.dataTransfer.dropEffect ∧
      (didEnterDropzone c e).dragEnterCall = Option.none) := by
  have hIff : ({ c with dataTransferWrapper := some ⟨e.dataTransfer⟩ } : Dropzone).isAllowed
      = true ↔
      (c.environment = "test" ∨ e.dataTransfer.sourceKind = Source.os ∨
        c.args.allowUploadsFromWebsites = some true) := by
    unfold Dropzone.isAllowed
    cases hab : c.args.allowUploadsFromWebsites with
    | none => simp [DataTransferWrapper.source, hab]
    | some b => cases b <;> simp [DataTransferWrapper.source, hab]
  refine ⟨hIff, ?_, ?_⟩
  · intro hperm
    have hA := hIff.mpr hperm
    simp only [didEnterDropzone]
    rw [if_pos hA]
    refine ⟨rfl, rfl, ?_, ?_⟩
    · simp [hCb, Dropzone.cursor]
    · simp [Dropzone.files, Dropzone.multiple, DataTransferWrapper.filesOrItems, withDropEffect]
  · intro hperm
    have hA : ({ c with dataTransferWrapper := some ⟨e.dataTransfer⟩ } : Dropzone).isAllowed
        ≠ true := fun h => hperm (hIff.mp h)
    simp only [didEnterDropzone]
    rw [if_neg hA]
    exact ⟨hIdle, rfl, rfl⟩

/-- C2 witness: the policy and transition facts instantiated at a
concrete idle dropzone and an os-origin drag event. -/
theorem dropzone_enter_policy_witness :
    sampleDropzone.active = false ∧ sampleDropzone.args.onDragEnter = true ∧
    (didEnterDropzone sampleDropzone osEvent).state.active = true := by
  refine ⟨rfl, rfl, ?_⟩
  exact ((dropzone_enter_policy sampleDropzone osEvent rfl rfl).2.1
    (Or.inr (Or.inl rfl))).1

/-- C1 counterexample: for a web-origin drop with the opt-in unset and a
non-test environment, the claim says didDrop leaves the dropEffect of the
event unchanged; at this concrete input the incoming dropEffect is move
and didDrop sets it to copy (the configured cursor). -/
theorem dropzone_reject_drop_effect_counterexample :
    sampleDropzone.environment ≠ "test" ∧
    sampleDropzone.args.allowUploadsFromWebsites.getD false = false ∧
    webEvent.dataTransfer.sourceKind ≠ Source.os ∧
    webEvent.dataTransfer.dropEffect = Cursor.move ∧
    (didDrop sampleDropzone webEvent).dropEffect = Cursor.copy ∧
    Cursor.copy ≠ Cursor.move := by
  decide

/-- C1 amended: for a rejected drag (non-test environment, opt-in unset
or false, non-os payload), didDragOver leaves the event dropEffect
unchanged and didDrop resets it to the configured cursor; both queue no
files and invoke no callback, and didDrop clears the stored wrapper —
the rejection is silent. -/
theorem dropzone_reject_silent (c : Dropzone) (e : FileUploadDragEvent)
    (h1 : c.environment ≠ "test")
    (h2 : c.args.allowUploadsFromWebsites.getD false = false)
    (h3 : e.dataTransfer.sourceKind ≠ Source.os) :
    (didDragOver c e).dropEffect = e.dataTransfer.dropEffect ∧
    (didDragOver c e).state.queue = c.queue ∧
    (didDragOver c e).state.active = c.active ∧
    (didDragOver c e).dragEnterCall = Option.none ∧
    (didDragOver c e).dragLeaveCall = Option.none ∧
    (didDragOver c e).dropCall = Option.none ∧
    (didDrop c e).dropEffect = c.cursor ∧
    (didDrop c e).state.queue = c.queue ∧
    (didDrop c e).state.active = c.active ∧
    (didDrop c e).state.dataTransferWrapper = Option.none ∧
    (didDrop c e).dropCall = Option.none := by
  have hA : (c.refreshWrapper e).isAllowed ≠ true := by
    rw [refreshWrapper_isAllowed_false c e h1 h2 h3]; simp
  simp only [didDragOver, didDrop]
  rw [if_neg hA, if_neg hA]
  refine ⟨rfl, refreshWrapper_queue c e, refreshWrapper_active c e, rfl, rfl, rfl,
    refreshWrapper_cursor c e, refreshWrapper_queue c e, refreshWrapper_active c e, rfl, rfl⟩

/-- C1 amended witness: the silent-rejection facts instantiated at a
concrete dropzone and a web-origin drop whose incoming dropEffect differs
from the configured cursor. -/
theorem dropzone_reject_silent_witness :
    sampleDropzone.environment ≠ "test" ∧
    sampleDropzone.args.allowUploadsFromWebsites.getD false = false ∧
    webEvent.dataTransfer.sourceKind ≠ Source.os ∧
    (didDrop sampleDropzone webEvent).state.queue = sampleDropzone.queue := by
  refine ⟨by decide, rfl, by decide, ?_⟩
  exact (dropzone_reject_silent sampleDropzone webEvent (by decide) rfl
    (by decide)).2.2.2.2.2.2.2.1

/-- C3: with allowUploadsFromWebsites true, a web-origin drop is
processed identically to an os-origin drop of the same payload: same
queue contents, same accepted file list passed to the drop callback, same
active flag, same cleared wrapper. -/
theorem web_drop_equiv_os_drop (c : Dropzone) (entries : List Entry) (de1 de2 : Cursor)
    (h : c.args.allowUploadsFromWebsites = some true) :
    (didDrop c ⟨⟨entries, de1, Source.web⟩⟩).state.queue =
      (didDrop c ⟨⟨entries, de2, Source.os⟩⟩).state.queue ∧
    (didDrop c ⟨⟨entries, de1, Source.web⟩⟩).dropCall.map Prod.fst =
      (didDrop c ⟨⟨entries, de2, Source.os⟩⟩).dropCall.map Prod.fst ∧
    (didDrop c ⟨⟨entries, de1, Source.web⟩⟩).state.active =
      (didDrop c ⟨⟨entries, de2, Source.os⟩⟩).state.active ∧
    (didDrop c ⟨⟨entries, de1, Source.web⟩⟩).state.dataTransferWrapper =
      (didDrop c ⟨⟨entries, de2, Source.os⟩⟩).state.dataTransferWrapper := by
  have hallow : c.args.allowUploadsFromWebsites.getD false = true := by rw [h]; rfl
  cases hw : c.dataTransferWrapper with
  | none =>
      have hAc : c.isAllowed = true := isAllowed_of_allow c hallow
      rw [didDrop_allowed_none c ⟨⟨entries, de1, Source.web⟩⟩ hw hAc,
        didDrop_allowed_none c ⟨⟨entries, de2, Source.os⟩⟩ hw hAc]
      exact ⟨rfl, rfl, rfl, rfl⟩
  | some w0 =>
      have hAw : (c.refreshWrapper ⟨⟨entries, de1, Source.web⟩⟩).isAllowed = true := by
        apply isAllowed_of_allow
        rw [refreshWrapper_args]
        exact hallow
      have hAo : (c.refreshWrapper ⟨⟨entries, de2, Source.os⟩⟩).isAllowed = true := by
        apply isAllowed_of_allow
        rw [refreshWrapper_args]
        exact hallow
      rw [didDrop_allowed_some c ⟨⟨entries, de1, Source.web⟩⟩ w0 hw hAw,
        didDrop_allowed_some c ⟨⟨entries, de2, Source.os⟩⟩ w0 hw hAo]
      refine ⟨rfl, ?_, rfl, rfl⟩
      cases hd : c.args.onDrop <;> simp

/-- C3 witness: equality of the processed results at a concrete opted-in
dropzone for a one-file payload dropped from the web and from the os. -/
theorem web_drop_equiv_os_drop_witness :
    allowDropzone.args.allowUploadsFromWebsites = some true ∧
    (didDrop allowDropzone ⟨⟨[Entry.file fileA], Cursor.move, Source.web⟩⟩).state.queue =
      (didDrop allowDropzone ⟨⟨[Entry.file fileA], Cursor.move, Source.os⟩⟩).state.queue := by
  exact ⟨rfl,
    (web_drop_equiv_os_drop allowDropzone [Entry.file fileA] Cursor.move Cursor.move rfl).1⟩

/-- C4: for an allowed drop of files x then y where the filter rejects x
and accepts y, exactly y is queued (appended to the existing queue) and
the drop callback receives exactly y; the rejection of x surfaces
nowhere. -/
theorem filtered_drop (c : Dropzone) (p : UploadFile → Bool) (x y : File)
    (de : Cursor) (src : Source) (w0 : DataTransferWrapper)
    (hw : c.dataTransferWrapper = some w0)
    (hA : (c.refreshWrapper ⟨⟨[Entry.file x, Entry.file y], de, src⟩⟩).isAllowed = true)
    (hm : c.args.multiple.getD true = true)
    (hf : c.args.filter = some p)
    (hx : p ⟨x, FileSource.dragAndDrop⟩ = false)
    (hy : p ⟨y, FileSource.dragAndDrop⟩ = true)
    (hCb : c.args.onDrop = true) :
    (didDrop c ⟨⟨[Entry.file x, Entry.file y], de, src⟩⟩).state.queue =
      c.queue ++ [⟨y, FileSource.dragAndDrop⟩] ∧
    (didDrop c ⟨⟨[Entry.file x, Entry.file y], de, src⟩⟩).dropCall.map Prod.fst =
      some [⟨y, FileSource.dragAndDrop⟩] := by
  rw [didDrop_allowed_some c ⟨⟨[Entry.file x, Entry.file y], de, src⟩⟩ w0 hw hA]
  have hmul : c.multiple = true := hm
  simp [hmul, hCb, addFiles, acceptsFile, hf, hx, hy]

/-- C4 witness: dropping a.txt then b.txt on a dropzone whose filter
accepts only b.txt queues exactly b.txt and reports exactly b.txt to the
drop callback. -/
theorem filtered_drop_witness :
    filterDropzone.dataTransferWrapper = some ⟨webTransfer⟩ ∧
    (filterDropzone.refreshWrapper osEvent).isAllowed = true ∧
    (didDrop filterDropzone osEvent).state.queue =
      filterDropzone.queue ++ [⟨fileB, FileSource.dragAndDrop⟩] := by
  refine ⟨rfl, by decide, ?_⟩
  exact (filtered_drop filterDropzone (fun uf => decide (uf.file.name = "b.txt"))
    fileA fileB Cursor.move Source.os ⟨webTransfer⟩ rfl (by decide) rfl rfl
    (by decide) (by decide) rfl).1

/-- C5 counterexample: an allowed drop of two candidate files with
multiple false queues zero files, not exactly one, when the filter
rejects the first candidate. -/
theorem single_drop_counterexample :
    singleDropzone.args.multiple = some false ∧
    osEvent.dataTransfer.entries.length = 2 ∧
    (singleDropzone.refreshWrapper osEvent).isAllowed = true ∧
    singleDropzone.queue = [] ∧
    (didDrop singleDropzone osEvent).state.queue = [] := by
  decide

/-- C5 amended: with multiple false, only the first candidate entry is
considered at every stage — the candidate list of the component, the
lists handed to the drag-enter, drag-leave and drop callbacks, and the
queued files all come from the one-entry truncation of the payload; the
drop queues at most one file, and queues exactly the first entry when
that entry is a native File accepted by the filter. -/
theorem single_drop (c : Dropzone) (e : FileUploadDragEvent)
    (w0 : DataTransferWrapper)
    (hmultiple : c.args.multiple = some false)
    (hw : c.dataTransferWrapper = some w0)
    (hA : (c.refreshWrapper e).isAllowed = true) :
    (c.refreshWrapper e).files = e.dataTransfer.entries.take 1 ∧
    (didDrop c e).state.queue =
      c.queue ++ addFiles c.args.filter (e.dataTransfer.entries.take 1) ∧
    (addFiles c.args.filter (e.dataTransfer.entries.take 1)).length ≤ 1 ∧
    (∀ f rest, e.dataTransfer.entries = Entry.file f :: rest →
      acceptsFile c.args.filter ⟨f, FileSource.dragAndDrop⟩ = true →
      (didDrop c e).state.queue = c.queue ++ [⟨f, FileSource.dragAndDrop⟩]) ∧
    (∀ l wpr, (didEnterDropzone c e).dragEnterCall = some (l, wpr) →
      l = e.dataTransfer.entries.take 1) ∧
    (∀ l wpr, (didLeaveDropzone c e).dragLeaveCall = some (l, wpr) →
      l = e.dataTransfer.entries.take 1) ∧
    (∀ l wpr, (didDrop c e).dropCall = some (l, wpr) →
      l = addFiles c.args.filter (e.dataTransfer.entries.take 1)) := by
  have hmul : c.multiple = false := by
    unfold Dropzone.multiple
    rw [hmultiple]
    rfl
  have hqueue : (didDrop c e).state.queue =
      c.queue ++ addFiles c.args.filter (e.dataTransfer.entries.take 1) := by
    rw [didDrop_allowed_some c e w0 hw hA, hmul]
    simp
  refine ⟨?_, hqueue, ?_, ?_, ?_, ?_, ?_⟩
  · have hc1 : c.refreshWrapper e =
        { c with dataTransferWrapper := some ⟨e.dataTransfer⟩ } := by
      simp [Dropzone.refreshWrapper, hw]
    rw [hc1]
    simp [Dropzone.files, DataTransferWrapper.filesOrItems, Dropzone.multiple, hmultiple]
  · exact le_trans (addFiles_length_le _ _) (by simp)
  · intro f rest hents hacc
    rw [hqueue, hents]
    simp [addFiles, hacc]
  · intro l wpr hcall
    rw [dragEnterCall_files c e l wpr hcall, hmul]
    simp
  · intro l wpr hcall
    rw [dragLeaveCall_files c e l wpr hcall, hmul]
    simp
  · intro l wpr hcall
    rw [dropCall_files c e l wpr hcall, hmul]
    simp

/-- C5 amended witness: with multiple false and no filter, an allowed
two-file drop queues exactly the first file. -/
theorem single_drop_witness :
    singleNoFilterDropzone.args.multiple = some false ∧
    singleNoFilterDropzone.dataTransferWrapper = some ⟨webTransfer⟩ ∧
    (singleNoFilterDropzone.refreshWrapper osEvent).isAllowed = true ∧
    (didDrop singleNoFilterDropzone osEvent).state.queue =
      singleNoFilterDropzone.queue ++ [⟨fileA, FileSource.dragAndDrop⟩] := by
  refine ⟨rfl, rfl, by decide, ?_⟩
  exact (single_drop singleNoFilterDropzone osEvent ⟨webTransfer⟩ rfl rfl
    (by decide)).2.2.2.1 fileA [Entry.file fileB] rfl rfl

/-- C6: for an allowed drop with a stored wrapper, the candidate files
(each dropped native File converted to an UploadFile tagged with the
drag-and-drop source, items discarded, the filter applied) are appended
to the queue in input order, the drop callback receives exactly the
accepted files together with the wrapper, and afterwards active is false
and the wrapper is cleared. -/
theorem allowed_drop (c : Dropzone) (e : FileUploadDragEvent)
    (w0 : DataTransferWrapper)
    (hw : c.dataTransferWrapper = some w0)
    (hA : (c.refreshWrapper e).isAllowed = true)
    (hCb : c.args.onDrop = true) :
    (didDrop c e).state.queue =
      c.queue ++ addFiles c.args.filter ((c.refreshWrapper e).files) ∧
    addFiles c.args.filter ((c.refreshWrapper e).files) =
      ((c.refreshWrapper e).files).filterMap (fun ent =>
        match ent with
        | Entry.file f =>
            if acceptsFile c.args.filter ⟨f, FileSource.dragAndDrop⟩ then
              some (⟨f, FileSource.dragAndDrop⟩ : UploadFile)
            else Option.none
        | Entry.item _ => Option.none) ∧
    (didDrop c e).dropCall =
      some (addFiles c.args.filter ((c.refreshWrapper e).files),
        (⟨e.dataTransfer⟩ : DataTransferWrapper)) ∧
    (∀ uf ∈ addFiles c.args.filter ((c.refreshWrapper e).files),
      uf.source = FileSource.dragAndDrop) ∧
    (didDrop c e).state.active = false ∧
    (didDrop c e).state.dataTransferWrapper = Option.none := by
  have hc1 : c.refreshWrapper e =
      { c with dataTransferWrapper := some ⟨e.dataTransfer⟩ } := by
    simp [Dropzone.refreshWrapper, hw]
  have hfiles : (c.refreshWrapper e).files =
      (if c.multiple then e.dataTransfer.entries else e.dataTransfer.entries.take 1) := by
    rw [hc1]
    simp [Dropzone.files, Dropzone.multiple, DataTransferWrapper.filesOrItems]
  rw [didDrop_allowed_some c e w0 hw hA, hfiles]
  exact ⟨rfl, addFiles_eq_filterMap c.args.filter _, by simp [hCb],
    addFiles_source c.args.filter _, rfl, rfl⟩

/-- C6 witness: an os-origin two-file drop on the sample dropzone appends
the converted files to the queue. -/
theorem allowed_drop_witness :
    sampleDropzone.dataTransferWrapper = some ⟨webTransfer⟩ ∧
    (sampleDropzone.refreshWrapper osEvent).isAllowed = true ∧
    sampleDropzone.args.onDrop = true ∧
    (didDrop sampleDropzone osEvent).state.queue =
      sampleDropzone.queue ++
        addFiles sampleDropzone.args.filter
          ((sampleDropzone.refreshWrapper osEvent).files) := by
  refine ⟨rfl, by decide, rfl, ?_⟩
  exact (allowed_drop sampleDropzone osEvent ⟨webTransfer⟩ rfl (by decide) rfl).1

/-- C7: didDragOver invokes no callback and changes nothing but the
stored wrapper DataTransfer reference (refreshed to the event payload,
with the dropEffect of the shared object set to the configured cursor
when the policy allows) and the event dropEffect itself; active, the
queue, and the remaining component state are untouched. -/
theorem dragover_frame (c : Dropzone) (e : FileUploadDragEvent) :
    (didDragOver c e).dragEnterCall = Option.none ∧
    (didDragOver c e).dragLeaveCall = Option.none ∧
    (didDragOver c e).dropCall = Option.none ∧
    (didDragOver c e).state.active = c.active ∧
    (didDragOver c e).state.queue = c.queue ∧
    (didDragOver c e).state.isDestroyed = c.isDestroyed ∧
    (didDragOver c e).state.args = c.args ∧
    (didDragOver c e).state.environment = c.environment ∧
    (didDragOver c e).state.dataTransferWrapper =
      c.dataTransferWrapper.map (fun _ =>
        (⟨if (c.refreshWrapper e).isAllowed then withDropEffect e.dataTransfer c.cursor
          else e.dataTransfer⟩ : DataTransferWrapper)) ∧
    (didDragOver c e).dropEffect =
      (if (c.refreshWrapper e).isAllowed then c.cursor else e.dataTransfer.dropEffect) := by
  cases hw : c.dataTransferWrapper with
  | none =>
      have hc1 : c.refreshWrapper e = c := by
        simp [Dropzone.refreshWrapper, hw]
      by_cases hA : c.isAllowed = true <;>
        simp [didDragOver, hc1, hA, hw, Dropzone.cursor]
  | some w0 =>
      have hc1 : c.refreshWrapper e =
          { c with dataTransferWrapper := some ⟨e.dataTransfer⟩ } := by
        simp [Dropzone.refreshWrapper, hw]
      by_cases hA : ({ c with dataTransferWrapper := some ⟨e.dataTransfer⟩ } :
          Dropzone).isAllowed = true <;>
        simp [didDragOver, hc1, hA, hw, Dropzone.cursor]

/-- C8: for an allowed drag-leave with a stored wrapper, didLeaveDropzone
invokes the drag-leave callback with the candidate files and the wrapper,
clears the stored wrapper, and resets active to false — unless the
component is destroyed, in which case active keeps its previous value. -/
theorem dragleave_teardown (c : Dropzone) (e : FileUploadDragEvent)
    (w0 : DataTransferWrapper)
    (hw : c.dataTransferWrapper = some w0)
    (hA : (c.refreshWrapper e).isAllowed = true)
    (hCb : c.args.onDragLeave = true) :
    (didLeaveDropzone c e).dragLeaveCall =
      some ((c.refreshWrapper e).files,
        (⟨withDropEffect e.dataTransfer c.cursor⟩ : DataTransferWrapper)) ∧
    (didLeaveDropzone c e).state.dataTransferWrapper = Option.none ∧
    (didLeaveDropzone c e).state.active = (if c.isDestroyed then c.active else false) ∧
    (c.isDestroyed = true → (didLeaveDropzone c e).state.active = c.active) := by
  have hc1 : c.refreshWrapper e =
      { c with dataTransferWrapper := some ⟨e.dataTransfer⟩ } := by
    simp [Dropzone.refreshWrapper, hw]
  rw [hc1] at hA
  have hcond : (({ c with dataTransferWrapper := some ⟨e.dataTransfer⟩ } :
      Dropzone).dataTransferWrapper.isSome &&
      ({ c with dataTransferWrapper := some ⟨e.dataTransfer⟩ } : Dropzone).isAllowed)
      = true := by
    rw [hA]
    rfl
  simp only [didLeaveDropzone, hc1]
  rw [if_pos hcond]
  refine ⟨?_, ?_, ?_, ?_⟩
  · simp [hCb, Dropzone.files, Dropzone.multiple, DataTransferWrapper.filesOrItems,
      withDropEffect, Dropzone.cursor]
  · cases hd : c.isDestroyed <;> simp [hd]
  · cases hd : c.isDestroyed <;> simp [hd]
  · intro hd
    simp [hd]

/-- C8 witness: an allowed drag-leave on the live sample dropzone fires
the callback, clears the wrapper and resets active. -/
theorem dragleave_teardown_witness :
    sampleDropzone.dataTransferWrapper = some ⟨webTransfer⟩ ∧
    (sampleDropzone.refreshWrapper osEvent).isAllowed = true ∧
    sampleDropzone.args.onDragLeave = true ∧
    (didLeaveDropzone sampleDropzone osEvent).state.dataTransferWrapper = Option.none := by
  refine ⟨rfl, by decide, rfl, ?_⟩
  exact (dragleave_teardown sampleDropzone osEvent ⟨webTransfer⟩ rfl (by decide) rfl).2.1

/-- C9: FileUploadComponent.onFileAdded runs no onFileAdd callback
synchronously during the notification; with the callback supplied, the
invocation is deferred to the next runloop turn and executes there. -/
theorem deferred_onFileAdd (b : Bool) (s : UploadNotifyState) (f : UploadFile) :
    (FileUploadComponent.onFileAdded b s f).syncInvocations = s.syncInvocations ∧
    (b = true →
      (FileUploadComponent.onFileAdded b s f).nextTurn = s.nextTurn ++ [f] ∧
      (runNextTurn (FileUploadComponent.onFileAdded b s f)).syncInvocations =
        (s.syncInvocations ++ s.nextTurn) ++ [f]) := by
  cases b <;> simp [FileUploadComponent.onFileAdded, runNextTurn]

/-- C9 witness: with a supplied callback and a fresh notification state,
adding a file schedules exactly one deferred invocation and runs nothing
synchronously. -/
theorem deferred_onFileAdd_witness :
    (FileUploadComponent.onFileAdded true ⟨[], []⟩ ⟨fileA, FileSource.browse⟩).syncInvocations
      = [] ∧
    (FileUploadComponent.onFileAdded true ⟨[], []⟩ ⟨fileA, FileSource.browse⟩).nextTurn
      = [⟨fileA, FileSource.browse⟩] := by
  refine ⟨(deferred_onFileAdd true ⟨[], []⟩ ⟨fileA, FileSource.browse⟩).1, ?_⟩
  have h := ((deferred_onFileAdd true ⟨[], []⟩ ⟨fileA, FileSource.browse⟩).2 rfl).1
  simpa using h

/-- C10: a drag-enter whose payload the policy rejects still stores the
wrapper while active stays false — a populated wrapper in an inactive
component — and subsequent drag-over, drag-leave and drop events evaluate
the policy afresh against this stored wrapper (refreshed to their own
payload): an os-origin follow-up is processed, a non-os one is rejected
again. -/
theorem rejected_enter_state (c : Dropzone) (e : FileUploadDragEvent)
    (hIdle : c.active = false)
    (h1 : c.environment ≠ "test")
    (h2 : c.args.allowUploadsFromWebsites.getD false = false)
    (h3 : e.dataTransfer.sourceKind ≠ Source.os) :
    (didEnterDropzone c e).state.dataTransferWrapper = some ⟨e.dataTransfer⟩ ∧
    (didEnterDropzone c e).state.active = false ∧
    (∀ e2 : FileUploadDragEvent, e2.dataTransfer.sourceKind = Source.os →
      ((didEnterDropzone c e).state.refreshWrapper e2).isAllowed = true ∧
      (didDrop (didEnterDropzone c e).state e2).state.queue =
        c.queue ++ addFiles c.args.filter
          (((didEnterDropzone c e).state.refreshWrapper e2).files) ∧
      (didDragOver (didEnterDropzone c e).state e2).dropEffect = c.cursor ∧
      (didLeaveDropzone (didEnterDropzone c e).state e2).state.dataTransferWrapper
        = Option.none) ∧
    (∀ e2 : FileUploadDragEvent, e2.dataTransfer.sourceKind ≠ Source.os →
      ((didEnterDropzone c e).state.refreshWrapper e2).isAllowed = false ∧
      (didDrop (didEnterDropzone c e).state e2).state.queue = c.queue ∧
      (didDragOver (didEnterDropzone c e).state e2).dropEffect =
        e2.dataTransfer.dropEffect ∧
      (didLeaveDropzone (didEnterDropzone c e).state e2).dragLeaveCall
        = Option.none) := by
  have hA1false : ({ c with dataTransferWrapper := some ⟨e.dataTransfer⟩ } :
      Dropzone).isAllowed = false :=
    isAllowed_eq_false _ h1 h2 (by
      intro w hww
      rw [Option.some.injEq] at hww
      rw [← hww]
      exact h3)
  have hA1 : ({ c with dataTransferWrapper := some ⟨e.dataTransfer⟩ } :
      Dropzone).isAllowed ≠ true := by
    rw [hA1false]
    simp
  have hs : (didEnterDropzone c e).state =
      { c with dataTransferWrapper := some ⟨e.dataTransfer⟩ } := by
    simp only [didEnterDropzone]
    rw [if_neg hA1]
  refine ⟨by rw [hs], by rw [hs]; exact hIdle, ?_, ?_⟩
  · intro e2 hos
    have hw2 : (didEnterDropzone c e).state.dataTransferWrapper =
        some ⟨e.dataTransfer⟩ := by rw [hs]
    have hA2 : ((didEnterDropzone c e).state.refreshWrapper e2).isAllowed = true := by
      apply isAllowed_of_os _ (⟨e2.dataTransfer⟩ : DataTransferWrapper)
      · rw [refreshWrapper_wrapper, hw2, Option.map_some']
      · exact hos
    have hsc1 : (didEnterDropzone c e).state.refreshWrapper e2 =
        { (didEnterDropzone c e).state with
            dataTransferWrapper := some ⟨e2.dataTransfer⟩ } := by
      simp [Dropzone.refreshWrapper, hw2]
    have hfiles : ((didEnterDropzone c e).state.refreshWrapper e2).files =
        (if (didEnterDropzone c e).state.multiple then e2.dataTransfer.entries
         else e2.dataTransfer.entries.take 1) := by
      rw [hsc1]
      simp [Dropzone.files, Dropzone.multiple, DataTransferWrapper.filesOrItems]
    refine ⟨hA2, ?_, ?_, ?_⟩
    · rw [didDrop_allowed_some ((didEnterDropzone c e).state) e2 ⟨e.dataTransfer⟩ hw2 hA2,
        hfiles, hs]
    · simp only [didDragOver]
      rw [if_pos hA2, refreshWrapper_cursor, hs]
      simp [Dropzone.cursor]
    · exact didLeave_wrapper_cleared ((didEnterDropzone c e).state) e2
        ⟨e.dataTransfer⟩ hw2 hA2
  · intro e2 hnos
    have hA2 : ((didEnterDropzone c e).state.refreshWrapper e2).isAllowed = false := by
      apply refreshWrapper_isAllowed_false
      · rw [hs]; exact h1
      · rw [hs]; exact h2
      · exact hnos
    have hA2' : ((didEnterDropzone c e).state.refreshWrapper e2).isAllowed ≠ true := by
      rw [hA2]
      simp
    have hcondne : ¬ ((Option.isSome
        ((didEnterDropzone c e).state.refreshWrapper e2).dataTransferWrapper &&
        ((didEnterDropzone c e).state.refreshWrapper e2).isAllowed) = true) := by
      rw [Bool.and_eq_true]
      intro hcond
      exact hA2' hcond.2
    refine ⟨hA2, ?_, ?_, ?_⟩
    · simp only [didDrop]
      rw [if_neg hA2']
      rw [refreshWrapper_queue, hs]
    · simp only [didDragOver]
      rw [if_neg hA2']
    · simp only [didLeaveDropzone]
      rw [if_neg hcondne]

/-- C10 witness: after a rejected web-origin drag-enter on the sample
dropzone, the wrapper is populated, active stays false, and a subsequent
os-origin drop is processed against the re-evaluated policy. -/
theorem rejected_enter_state_witness :
    sampleDropzone.active = false ∧
    webEvent.dataTransfer.sourceKind ≠ Source.os ∧
    (didEnterDropzone sampleDropzone webEvent).state.dataTransferWrapper =
      some ⟨webEvent.dataTransfer⟩ ∧
    (didDrop (didEnterDropzone sampleDropzone webEvent).state osEvent).state.queue =
      sampleDropzone.queue ++ addFiles sampleDropzone.args.filter
        (((didEnterDropzone sampleDropzone webEvent).state.refreshWrapper osEvent).files) := by
  have h := rejected_enter_state sampleDropzone webEvent rfl (by decide) rfl (by decide)
  exact ⟨rfl, by decide, h.1, (h.2.2.1 osEvent rfl).2.1⟩

end EmberFileUpload
